import Mathlib

/-!
Verification of the UPnP port-opening client (`src/main.py`).

The single operation `open_upnp_port(port_number)` runs three stages inside
one `try`: SSDP discovery over UDP, an HTTP GET of the device description
XML, and a SOAP `AddPortMapping` POST.  The embedding below models the
network environment explicitly (`Env`): the sequence of datagrams the
discovery socket yields, the result of the description fetch and parse, the
local-IP lookup, and the POST response.  Python exceptions are modelled as
`Except PyErr`; the outer `except Exception` corresponds to mapping every
`.error` to a `false` return.  The run also records the observable network
effects (M-SEARCH send, HTTP GET, HTTP POST) as a trace.
-/

/-- Exceptions the Python code can raise, as far as the model distinguishes
them.  `attributeError` covers `None.group` / `None.text` / `None.endswith`. -/
inductive PyErr where
  | unicodeDecodeError
  | attributeError
  | indexError
  | connectionError
  | xmlParseError
  | gaiError
  | socketError
deriving DecidableEq

/-- One `recvfrom` outcome: a datagram whose bytes decode to the given
characters, or a datagram whose bytes fail UTF-8 decoding
(`data.decode()` raises). -/
inductive Dgram where
  | ok (data : List Char)
  | decodeErr
deriving DecidableEq

/-- The characters of the `re.search` pattern prefix `LOCATION: `. -/
def locPat : List Char := "LOCATION: ".data

/-- The characters of the substring tested by `"LOCATION" in data.decode()`. -/
def locNeedle : List Char := "LOCATION".data

/-- Contiguous-substring test on character lists, the semantics of the
Python `in` operator on strings: `needle` occurs starting at some position
of `hay`. -/
def isSubList (needle : List Char) : List Char → Bool
  | [] => needle.isEmpty
  | c :: cs => needle.isPrefixOf (c :: cs) || isSubList needle cs

/-- Semantics of attempting the Python regex `LOCATION: (.*)\r\n` at the
start of `s`.  `.` matches any character except a newline and `(.*)` is
greedy, so a match at this position exists exactly when the maximal
newline-free run after `LOCATION: ` ends with a carriage return that is
immediately followed by the newline; the captured group is that run without
its final carriage return. -/
def matchLocAt (s : List Char) : Option (List Char) :=
  if locPat.isPrefixOf s then
    let r := s.drop locPat.length
    let line := r.takeWhile (fun c => c != '\n')
    if line.length < r.length && line.getLast? == some '\r' then
      some line.dropLast
    else none
  else none

/-- Semantics of `re.search(r"LOCATION: (.*)\r\n", data)`: try every start
position left to right and return the first captured group, `none` when the
pattern matches nowhere (and `.group(1)` would raise). -/
def searchLoc : List Char → Option (List Char)
  | [] => none
  | c :: cs =>
    match matchLocAt (c :: cs) with
    | some g => some g
    | none => searchLoc cs

/-- Result of the discovery receive loop (lines 42-51 of `main.py`). -/
inductive DiscResult where
  | found (location : List Char)
  | timeout
  | exc (e : PyErr)
deriving DecidableEq

/-- The `while True` receive loop: each datagram is decoded; if the decoded
text contains the substring `LOCATION` the regex is applied — a successful
match breaks out with the captured location, a failed match raises
`AttributeError` on `.group(1)`; otherwise the loop keeps receiving.  An
exhausted datagram list models `socket.timeout`, on which the code returns
`False` directly. -/
def discoverLoop : List Dgram → DiscResult
  | [] => .timeout
  | .decodeErr :: _ => .exc .unicodeDecodeError
  | .ok d :: rest =>
    if isSubList locNeedle d then
      match searchLoc d with
      | some loc => .found loc
      | none => .exc .attributeError
    else discoverLoop rest

/-- Python `location.split("/")` with the literal separator `/`. -/
def splitSlash : List Char → List (List Char)
  | [] => [[]]
  | c :: rest =>
    if c = '/' then [] :: splitSlash rest
    else
      match splitSlash rest with
      | [] => [[c]]
      | g :: gs => (c :: g) :: gs

/-- Python `"/".join(parts)`. -/
def joinSlash : List (List Char) → List Char
  | [] => []
  | [x] => x
  | x :: xs => x ++ '/' :: joinSlash xs

/-- An XML element as `xml.etree.ElementTree` exposes it: a fully qualified
tag (namespace in braces), the text content (which may be absent), and the
child elements in document order. -/
inductive XElem where
  | mk (tag : String) (text : Option String) (children : List XElem)

/-- Tag of an element. -/
def XElem.tag : XElem → String
  | .mk t _ _ => t

/-- Text of an element (`Element.text`, possibly `None`). -/
def XElem.text : XElem → Option String
  | .mk _ x _ => x

/-- Children of an element in document order. -/
def XElem.children : XElem → List XElem
  | .mk _ _ c => c

/-- All elements of the given forest in document (preorder) order; applied
to `root.children` this is what the XPath `.//` axis ranges over. -/
def subtreeList : List XElem → List XElem
  | [] => []
  | XElem.mk t x cs :: es => XElem.mk t x cs :: (subtreeList cs ++ subtreeList es)

/-- Qualified tag of `service` in the UPnP device namespace. -/
def svcTag : String := "\x7burn:schemas-upnp-org:device-1-0\x7dservice"

/-- Qualified tag of `serviceType`. -/
def stTag : String := "\x7burn:schemas-upnp-org:device-1-0\x7dserviceType"

/-- Qualified tag of `controlURL`. -/
def cuTag : String := "\x7burn:schemas-upnp-org:device-1-0\x7dcontrolURL"

/-- `Element.find` with a namespaced child tag: first direct child with that
tag, `none` when there is none. -/
def findChild (e : XElem) (tg : String) : Option XElem :=
  e.children.find? (fun c => c.tag == tg)

/-- `root.findall(".//ns:service", ns)`: every descendant of the root whose
tag is the qualified `service` tag, in document order. -/
def servicesOf (root : XElem) : List XElem :=
  (subtreeList root.children).filter (fun e => e.tag == svcTag)

/-- `service.find("ns:serviceType", ns).text` as one step: `some txt` when
the child exists and its text is a string; `none` when either the child is
missing (`None.text` raises) or its text is `None` (`None.endswith` raises)
— both raise `AttributeError`. -/
def svcTypeText (s : XElem) : Option String :=
  (findChild s stTag).bind (fun st => st.text)

/-- Python `s.endswith(suffix)`: the suffix test on the character
sequences. -/
def pyEndsWith (s suffix : String) : Bool :=
  suffix.data.isSuffixOf s.data

/-- Outcome of the `for service in ...` walk (lines 61-67 of `main.py`). -/
inductive FetchOutcome where
  | found (controlUrl : Option String)
  | notFound
  | exc (e : PyErr)
deriving DecidableEq

/-- The service walk: services are inspected in document order; a service
whose `serviceType` lookup raises aborts the whole walk; the first service
whose `serviceType` text ends with `WANIPConnection` is selected and its
`controlURL` text returned (a missing `controlURL` child raises); if no
service matches, the `for`/`else` arm reports failure. -/
def findService : List XElem → FetchOutcome
  | [] => .notFound
  | s :: rest =>
    match svcTypeText s with
    | none => .exc .attributeError
    | some txt =>
      if pyEndsWith txt "WANIPConnection" then
        match findChild s cuTag with
        | none => .exc .attributeError
        | some cu => .found cu.text
      else findService rest

/-- Opening static text of the SOAP envelope: XML declaration, envelope and
body open tags, up to the indentation before `<u:AddPortMapping>`. -/
def soapHead : String :=
  "<?xml version=\"1.0\"?>\n        <s:Envelope xmlns:s=\"http://schemas.xmlsoap.org/soap/envelope/\" s:encodingStyle=\"http://schemas.xmlsoap.org/soap/encoding/\">\n            <s:Body>\n                "

/-- The newline and 20-space indentation separating the argument lines of
the envelope. -/
def soapIndent : String := "\n                    "

/-- The static description line of the envelope. -/
def soapDescLine : String :=
  "\n                    <NewPortMappingDescription>UPnP Port Mapping</NewPortMappingDescription>\n                    "

/-- Closing static text of the SOAP envelope. -/
def soapTail : String :=
  "\n                </u:AddPortMapping>\n            </s:Body>\n        </s:Envelope>"

/-- The f-string `soap_body` of lines 73-87: the static text with the port
number interpolated twice (external and internal port) and the local IP
once.  The concatenation below spells out the same characters as the Python
f-string, split at the field boundaries. -/
def soapBody (port : Nat) (ip : String) : String :=
  soapHead ++
  "<u:AddPortMapping xmlns:u=\"urn:schemas-upnp-org:service:WANIPConnection:1\">" ++
  soapIndent ++ "<NewRemoteHost></NewRemoteHost>" ++
  soapIndent ++ "<NewExternalPort>" ++ toString port ++ "</NewExternalPort>" ++
  soapIndent ++ "<NewProtocol>TCP</NewProtocol>" ++
  soapIndent ++ "<NewInternalPort>" ++ toString port ++ "</NewInternalPort>" ++
  soapIndent ++ "<NewInternalClient>" ++ ip ++ "</NewInternalClient>" ++
  soapIndent ++ "<NewEnabled>1</NewEnabled>" ++
  soapDescLine ++ "<NewLeaseDuration>0</NewLeaseDuration>" ++
  soapTail

/-- The header dict of the POST request (lines 89-93). -/
def soapHeaders : List (String × String) :=
  [("SOAPAction", "\"urn:schemas-upnp-org:service:WANIPConnection:1#AddPortMapping\""),
   ("Content-Type", "text/xml; charset=\"utf-8\""),
   ("Connection", "close")]

/-- The request target actually sent by `http.client` for a given
`controlURL` text: `putrequest` replaces a `None` or empty url by `/`. -/
def postTarget : Option String → String
  | none => "/"
  | some u => if u = "" then "/" else u

/-- Observable network effects of one invocation. -/
inductive Effect where
  | msearch
  | httpGet (host : String) (path : String)
  | httpPost (host : String) (url : String) (body : String) (headers : List (String × String))
deriving DecidableEq

/-- Whether an effect is the description GET. -/
def Effect.isGet : Effect → Bool
  | .httpGet _ _ => true
  | _ => false

/-- Whether an effect is the mapping POST. -/
def Effect.isPost : Effect → Bool
  | .httpPost _ _ _ _ => true
  | _ => false

/-- The network environment one invocation runs against: whether socket
setup and the M-SEARCH send raise, the datagrams the discovery socket
yields before timing out, the combined result of the description GET, read
and XML parse, the local-IP lookup, and the POST response (status code and
SOAP response body). -/
structure Env where
  sendErr : Option PyErr
  recvs : List Dgram
  descResult : Except PyErr XElem
  localIp : Except PyErr String
  postResp : Except PyErr (Nat × String)

/-- Result of one invocation before the outer `except`: either the value a
`return` produced or the exception that escaped the stages, together with
the trace of network effects performed. -/
structure RunOut where
  result : Except PyErr Bool
  trace : List Effect

/-- The body of `open_upnp_port` (the whole `try` block, lines 24-105):
socket setup and M-SEARCH send, the discovery receive loop, host/path
splitting of the location URL, the description GET and parse, the service
walk, the local-IP lookup and SOAP body construction, the POST and the
final status test `response.status == 200`. -/
def runUpnp (env : Env) (port : Nat) : RunOut :=
  match env.sendErr with
  | some e => ⟨.error e, []⟩
  | none =>
    match discoverLoop env.recvs with
    | .timeout => ⟨.ok false, [.msearch]⟩
    | .exc e => ⟨.error e, [.msearch]⟩
    | .found loc =>
      match (splitSlash loc).get? 2 with
      | none => ⟨.error .indexError, [.msearch]⟩
      | some host =>
        let path : List Char := '/' :: joinSlash ((splitSlash loc).drop 3)
        let t1 : List Effect := [.msearch, .httpGet (String.mk host) (String.mk path)]
        match env.descResult with
        | .error e => ⟨.error e, t1⟩
        | .ok root =>
          match findService (servicesOf root) with
          | .notFound => ⟨.ok false, t1⟩
          | .exc e => ⟨.error e, t1⟩
          | .found cu =>
            match env.localIp with
            | .error e => ⟨.error e, t1⟩
            | .ok ip =>
              let t2 := t1 ++ [.httpPost (String.mk host) (postTarget cu) (soapBody port ip) soapHeaders]
              match env.postResp with
              | .error e => ⟨.error e, t2⟩
              | .ok (st, _) => ⟨.ok (st == 200), t2⟩

/-- `open_upnp_port(port_number)` as the caller sees it: the `try` body with
the outer `except Exception` turning every escaped exception into `False`. -/
def open_upnp_port (env : Env) (port : Nat) : Bool :=
  match (runUpnp env port).result with
  | .ok b => b
  | .error _ => false

/-- Module-level mutable state of `main.py`: only the logging configuration
installed at import time; `open_upnp_port` reads the logger but never
mutates any module state. -/
structure ModuleState where
  logConfigured : Bool

/-- `open_upnp_port` with the module state threaded through explicitly: the
function mutates nothing, so the state passes through unchanged. -/
def open_upnp_port_st (st : ModuleState) (env : Env) (port : Nat) : Bool × ModuleState :=
  (open_upnp_port env port, st)

/-- Substring test on strings, the semantics of the Python `in` operator. -/
def strContains (hay needle : String) : Bool :=
  isSubList needle.data hay.data

/-- A service element whose `serviceType` text ends in `WANIPConnection`,
used as a concrete test device. -/
def demoSvcMatch : XElem :=
  .mk svcTag none
    [.mk stTag (some "urn:demo:WANIPConnection") [],
     .mk cuTag (some "/ctl/IPConn") []]

/-- A service element of some other type. -/
def demoSvcOther : XElem :=
  .mk svcTag none
    [.mk stTag (some "urn:demo:OtherService") [],
     .mk cuTag (some "/ctl/Other") []]

/-- A malformed service element lacking the `serviceType` child. -/
def demoSvcNoType : XElem :=
  .mk svcTag none [.mk cuTag (some "/ctl/X") []]

/-- A service element of the wanted type but lacking the `controlURL`
child. -/
def demoSvcNoCtl : XElem :=
  .mk svcTag none [.mk stTag (some "urn:demo:WANIPConnection") []]

/-- A device description whose nested service list holds exactly one
matching service. -/
def demoRoot : XElem :=
  .mk "root" none [.mk "device" none [demoSvcMatch]]

/-- A device description with a single service, of the wrong type. -/
def demoRootNone : XElem :=
  .mk "root" none [.mk "device" none [demoSvcOther]]

/-- A well-formed SSDP reply datagram carrying a `LOCATION` header. -/
def demoReply : List Char :=
  "HTTP/1.1 200 OK\r\nLOCATION: http://192.168.1.1:5000/desc.xml\r\nSERVER: x\r\n".data

/-- An environment in which every stage succeeds and the POST answers 200:
one irrelevant datagram, then a qualifying reply. -/
def demoEnvOk : Env :=
  ⟨none, [Dgram.ok "NOTIFY * HTTP/1.1\r\n".data, Dgram.ok demoReply],
   Except.ok demoRoot, Except.ok "192.168.1.10", Except.ok (200, "<ok/>")⟩

/-- The same environment except that the POST answers 500. -/
def demoEnv500 : Env :=
  ⟨none, [Dgram.ok "NOTIFY * HTTP/1.1\r\n".data, Dgram.ok demoReply],
   Except.ok demoRoot, Except.ok "192.168.1.10", Except.ok (500, "<fault/>")⟩

/-- An environment whose discovery socket only ever yields a datagram
without the wanted header, then times out. -/
def demoEnvTimeout : Env :=
  ⟨none, [Dgram.ok "NOTIFY * HTTP/1.1\r\n".data],
   Except.ok demoRoot, Except.ok "192.168.1.10", Except.ok (200, "<ok/>")⟩

/-- An environment whose first datagram fails UTF-8 decoding. -/
def demoEnvDecode : Env :=
  ⟨none, [Dgram.decodeErr],
   Except.ok demoRoot, Except.ok "192.168.1.10", Except.ok (200, "<ok/>")⟩

/-- An environment whose device description holds no matching service. -/
def demoEnvNoSvc : Env :=
  ⟨none, [Dgram.ok demoReply],
   Except.ok demoRootNone, Except.ok "192.168.1.10", Except.ok (200, "<ok/>")⟩

/-- A device description listing a non-matching service before the matching
one. -/
def demoRootTwo : XElem :=
  .mk "root" none [.mk "device" none [demoSvcOther, demoSvcMatch]]

/-- An environment whose device description is `demoRootTwo`. -/
def demoEnvTwo : Env :=
  ⟨none, [Dgram.ok demoReply],
   Except.ok demoRootTwo, Except.ok "192.168.1.10", Except.ok (200, "<ok/>")⟩

/-- A device description listing a service without `serviceType` before a
matching service. -/
def demoRootBad : XElem :=
  .mk "root" none [.mk "device" none [demoSvcNoType, demoSvcMatch]]

/-- An environment whose device description is `demoRootBad`. -/
def demoEnvBadSvc : Env :=
  ⟨none, [Dgram.ok demoReply],
   Except.ok demoRootBad, Except.ok "192.168.1.10", Except.ok (200, "<ok/>")⟩

/-! ## Helper lemmas -/

/-- A list is a Boolean prefix of itself followed by anything. -/
theorem isPrefixOf_append_self (a b : List Char) : a.isPrefixOf (a ++ b) = true := by
  induction a with
  | nil => simp [List.isPrefixOf]
  | cons c cs ih => simp [List.isPrefixOf, ih]

/-- Dropping the length of the left part of an append yields the right part. -/
theorem drop_length_append (a b : List Char) : (a ++ b).drop a.length = b := by
  induction a with
  | nil => rfl
  | cons c cs ih => simp [ih]

/-- The substring test succeeds on any explicit occurrence. -/
theorem isSubList_append_mid (a b c : List Char) : isSubList b (a ++ b ++ c) = true := by
  induction a with
  | nil =>
    cases b with
    | nil =>
      cases c with
      | nil => rfl
      | cons x xs => simp [isSubList]
    | cons y ys =>
      have h := isPrefixOf_append_self (y :: ys) c
      simp only [List.nil_append, List.cons_append, isSubList]
      simp only [List.cons_append] at h
      simp [h]
  | cons x xs ih =>
    show (b.isPrefixOf (x :: (xs ++ b ++ c)) || isSubList b (xs ++ b ++ c)) = true
    rw [ih, Bool.or_true]

/-- Any escaped exception makes the caller-visible result `false`. -/
theorem runUpnp_error_false (env : Env) (port : Nat) (e : PyErr)
    (h : (runUpnp env port).result = Except.error e) :
    open_upnp_port env port = false := by
  simp [open_upnp_port, h]

/-- Taking up to the first newline of `value ++ CRLF ++ rest` yields `value`
plus the carriage return when `value` is newline-free. -/
theorem takeWhile_no_nl (value rest : List Char) (h : '\n' ∉ value) :
    (value ++ '\r' :: '\n' :: rest).takeWhile (fun c => c != '\n') = value ++ ['\r'] := by
  induction value with
  | nil => rfl
  | cons c cs ih =>
    simp only [List.mem_cons, not_or] at h
    have hc : (c != '\n') = true := by
      simp [bne]
      exact fun hh => h.1 hh.symm
    simp only [List.cons_append, List.takeWhile_cons, hc]
    simp [ih h.2]

/-- The regex `LOCATION: (.*)\r\n` matched right at the header start
captures exactly the newline-free value before the CRLF. -/
theorem matchLocAt_pat (value rest : List Char) (h : '\n' ∉ value) :
    matchLocAt (locPat ++ (value ++ '\r' :: '\n' :: rest)) = some value := by
  have h1 := isPrefixOf_append_self locPat (value ++ '\r' :: '\n' :: rest)
  have h2 := drop_length_append locPat (value ++ '\r' :: '\n' :: rest)
  have h3 := takeWhile_no_nl value rest h
  simp only [matchLocAt, h1, if_true, h2, h3]
  have h4 : (value ++ ['\r']).length < (value ++ '\r' :: '\n' :: rest).length := by
    simp [List.length_append]
  have h5 : (value ++ ['\r']).getLast? = some '\r' := by
    simp [List.getLast?_append]
  simp [h4, h5, List.dropLast_concat]

/-- A nonempty list whose head position matches yields that capture. -/
theorem searchLoc_cons_match (c : Char) (cs g : List Char)
    (hm : matchLocAt (c :: cs) = some g) : searchLoc (c :: cs) = some g := by
  simp [searchLoc, hm]

/-- Search skips a region in which the pattern matches at no position. -/
theorem searchLoc_skip (pre s : List Char)
    (h : ∀ i, i < pre.length → matchLocAt ((pre ++ s).drop i) = none) :
    searchLoc (pre ++ s) = searchLoc s := by
  induction pre with
  | nil => rfl
  | cons p ps ih =>
    have h0 := h 0 (Nat.succ_pos ps.length)
    simp only [List.cons_append, List.drop_zero] at h0
    have hrest : ∀ i, i < ps.length → matchLocAt ((ps ++ s).drop i) = none := by
      intro i hi
      have := h (i + 1) (Nat.succ_lt_succ hi)
      simpa using this
    calc searchLoc ((p :: ps) ++ s)
        = searchLoc (ps ++ s) := by simp [searchLoc, h0]
      _ = searchLoc s := ih hrest

/-- The walk ignores a leading block of well-formed services of other
types. -/
theorem findService_skip (pre rest : List XElem)
    (h : ∀ t ∈ pre, ∃ txt, svcTypeText t = some txt ∧
      pyEndsWith txt "WANIPConnection" = false) :
    findService (pre ++ rest) = findService rest := by
  induction pre with
  | nil => rfl
  | cons s ps ih =>
    obtain ⟨txt, h1, h2⟩ := h s (List.mem_cons_self s ps)
    have h3 := ih (fun t ht => h t (List.mem_cons_of_mem s ht))
    simp [findService, h1, h2, h3]

/-- When every stage before the POST succeeds, the run performs exactly the
M-SEARCH, the description GET and the mapping POST, and its result is the
POST response with the status compared against 200. -/
theorem runUpnp_reaches_post (env : Env) (port : Nat) (loc host : List Char)
    (root : XElem) (cu : Option String) (ip : String)
    (hsend : env.sendErr = none)
    (hdisc : discoverLoop env.recvs = DiscResult.found loc)
    (hhost : (splitSlash loc).get? 2 = some host)
    (hdesc : env.descResult = Except.ok root)
    (hfind : findService (servicesOf root) = FetchOutcome.found cu)
    (hip : env.localIp = Except.ok ip) :
    runUpnp env port =
      ⟨(match env.postResp with
        | Except.error e => Except.error e
        | Except.ok (st, _) => Except.ok (st == 200)),
       [Effect.msearch,
        Effect.httpGet (String.mk host)
          (String.mk ('/' :: joinSlash ((splitSlash loc).drop 3))),
        Effect.httpPost (String.mk host) (postTarget cu) (soapBody port ip)
          soapHeaders]⟩ := by
  simp only [runUpnp, hsend, hdisc, hhost, hdesc, hfind, hip]
  cases env.postResp with
  | error e => rfl
  | ok p => cases p with | mk st b => rfl

/-- When every stage before the walk succeeds but no service matches, the
run returns `false` having performed only the M-SEARCH and the GET. -/
theorem runUpnp_no_service (env : Env) (port : Nat) (loc host : List Char)
    (root : XElem)
    (hsend : env.sendErr = none)
    (hdisc : discoverLoop env.recvs = DiscResult.found loc)
    (hhost : (splitSlash loc).get? 2 = some host)
    (hdesc : env.descResult = Except.ok root)
    (hfind : findService (servicesOf root) = FetchOutcome.notFound) :
    runUpnp env port =
      ⟨Except.ok false,
       [Effect.msearch,
        Effect.httpGet (String.mk host)
          (String.mk ('/' :: joinSlash ((splitSlash loc).drop 3)))]⟩ := by
  simp only [runUpnp, hsend, hdisc, hhost, hdesc, hfind]

/-- When the walk raises, the run ends in that exception having performed
only the M-SEARCH and the GET. -/
theorem runUpnp_svc_exc (env : Env) (port : Nat) (loc host : List Char)
    (root : XElem) (e : PyErr)
    (hsend : env.sendErr = none)
    (hdisc : discoverLoop env.recvs = DiscResult.found loc)
    (hhost : (splitSlash loc).get? 2 = some host)
    (hdesc : env.descResult = Except.ok root)
    (hfind : findService (servicesOf root) = FetchOutcome.exc e) :
    runUpnp env port =
      ⟨Except.error e,
       [Effect.msearch,
        Effect.httpGet (String.mk host)
          (String.mk ('/' :: joinSlash ((splitSlash loc).drop 3)))]⟩ := by
  simp only [runUpnp, hsend, hdisc, hhost, hdesc, hfind]

/-! ## Claims -/

/-- C1: when discovery, the description fetch and everything up to the
mapping POST succeed, `open_upnp_port` returns `true` exactly when the POST
response status is 200 and `false` for every other status; the SOAP
response body `respBody` is arbitrary and does not influence the result. -/
theorem C1_post_status_decides (env : Env) (port : Nat) (loc host : List Char)
    (root : XElem) (cu : Option String) (ip : String) (st : Nat) (respBody : String)
    (hsend : env.sendErr = none)
    (hdisc : discoverLoop env.recvs = DiscResult.found loc)
    (hhost : (splitSlash loc).get? 2 = some host)
    (hdesc : env.descResult = Except.ok root)
    (hfind : findService (servicesOf root) = FetchOutcome.found cu)
    (hip : env.localIp = Except.ok ip)
    (hpost : env.postResp = Except.ok (st, respBody)) :
    open_upnp_port env port = (st == 200) := by
  have h := runUpnp_reaches_post env port loc host root cu ip
    hsend hdisc hhost hdesc hfind hip
  simp [open_upnp_port, h, hpost]

/-- C1 witness: a run answered 200 returns `true`, a run answered 500
returns `false`. -/
theorem C1_post_status_decides_witness :
    open_upnp_port demoEnvOk 1234 = true ∧ open_upnp_port demoEnv500 1234 = false := by
  have hsvc : servicesOf demoRoot = [demoSvcMatch] := by
    simp [servicesOf, demoRoot, demoSvcMatch, subtreeList, XElem.children,
      XElem.tag, svcTag, stTag, cuTag]
  constructor
  · exact C1_post_status_decides demoEnvOk 1234
      "http://192.168.1.1:5000/desc.xml".data "192.168.1.1:5000".data
      demoRoot (some "/ctl/IPConn") "192.168.1.10" 200 "<ok/>"
      rfl rfl rfl rfl (by rw [hsvc]; decide) rfl rfl
  · exact C1_post_status_decides demoEnv500 1234
      "http://192.168.1.1:5000/desc.xml".data "192.168.1.1:5000".data
      demoRoot (some "/ctl/IPConn") "192.168.1.10" 500 "<fault/>"
      rfl rfl rfl rfl (by rw [hsvc]; decide) rfl rfl

/-- C2: `open_upnp_port` always yields one of the two Booleans, and every
modelled exception escaping the staged body — socket, decode, HTTP, XML or
attribute errors, whatever the environment does — is converted to a `false`
return by the outer handler, never propagated. -/
theorem C2_exceptions_to_false :
    (∀ env port, open_upnp_port env port = true ∨ open_upnp_port env port = false)
    ∧ (∀ env port e, (runUpnp env port).result = Except.error e →
        open_upnp_port env port = false) := by
  constructor
  · intro env port
    cases h : open_upnp_port env port
    · exact Or.inr rfl
    · exact Or.inl rfl
  · intro env port e h
    exact runUpnp_error_false env port e h

/-- C2 witness: a datagram failing UTF-8 decoding raises inside the loop
and the call still returns `false`. -/
theorem C2_exceptions_to_false_witness :
    open_upnp_port demoEnvDecode 7 = false :=
  C2_exceptions_to_false.2 demoEnvDecode 7 PyErr.unicodeDecodeError rfl

/-- C3: when the discovery receive loop ends in a socket timeout, the call
returns `false` and the effect trace holds neither a description GET nor a
mapping POST — the later stages are never reached. -/
theorem C3_timeout_short_circuits (env : Env) (port : Nat)
    (h : discoverLoop env.recvs = DiscResult.timeout) :
    open_upnp_port env port = false ∧
    ∀ ef ∈ (runUpnp env port).trace, ef.isGet = false ∧ ef.isPost = false := by
  cases hs : env.sendErr with
  | some e =>
    refine ⟨runUpnp_error_false env port e (by simp [runUpnp, hs]), ?_⟩
    intro ef hef
    simp [runUpnp, hs] at hef
  | none =>
    have hr : runUpnp env port = ⟨Except.ok false, [Effect.msearch]⟩ := by
      simp only [runUpnp, hs, h]
    refine ⟨by simp [open_upnp_port, hr], ?_⟩
    intro ef hef
    rw [hr] at hef
    simp only [List.mem_singleton] at hef
    subst hef
    exact ⟨rfl, rfl⟩

/-- C3 witness: an environment whose only datagram lacks the header times
out, returns `false` and performs no GET and no POST. -/
theorem C3_timeout_short_circuits_witness :
    open_upnp_port demoEnvTimeout 5 = false ∧
    ∀ ef ∈ (runUpnp demoEnvTimeout 5).trace, ef.isGet = false ∧ ef.isPost = false :=
  C3_timeout_short_circuits demoEnvTimeout 5 rfl

/-- C4: for a discovery reply holding a `LOCATION: value CRLF` header whose
value is newline-free, with no pattern match possible before the header,
the extracted location is exactly the header value with the trailing CRLF
stripped, and the loop reports it as the found device. -/
theorem C4_location_extraction (pre value rest : List Char)
    (hnl : '\n' ∉ value)
    (hfirst : ∀ i, i < pre.length →
      matchLocAt ((pre ++ (locPat ++ (value ++ '\r' :: '\n' :: rest))).drop i) = none) :
    searchLoc (pre ++ (locPat ++ (value ++ '\r' :: '\n' :: rest))) = some value
    ∧ ∀ ds, discoverLoop
        (Dgram.ok (pre ++ (locPat ++ (value ++ '\r' :: '\n' :: rest))) :: ds)
        = DiscResult.found value := by
  have hm := matchLocAt_pat value rest hnl
  have hne : locPat ++ (value ++ '\r' :: '\n' :: rest) ≠ [] := by
    intro h
    exact absurd (List.append_eq_nil.mp h).1 (by decide)
  have hsearch : searchLoc (pre ++ (locPat ++ (value ++ '\r' :: '\n' :: rest)))
      = some value := by
    rw [searchLoc_skip pre _ hfirst]
    cases hc : locPat ++ (value ++ '\r' :: '\n' :: rest) with
    | nil => exact absurd hc hne
    | cons c cs =>
      rw [hc] at hm
      exact searchLoc_cons_match c cs value hm
  have hlp : locPat = locNeedle ++ ": ".data := by decide
  have hsub : isSubList locNeedle (pre ++ (locPat ++ (value ++ '\r' :: '\n' :: rest)))
      = true := by
    have h := isSubList_append_mid pre locNeedle
      (": ".data ++ (value ++ '\r' :: '\n' :: rest))
    calc isSubList locNeedle (pre ++ (locPat ++ (value ++ '\r' :: '\n' :: rest)))
        = isSubList locNeedle (pre ++ locNeedle ++
            (": ".data ++ (value ++ '\r' :: '\n' :: rest))) := by
          rw [hlp]; simp [List.append_assoc]
      _ = true := h
  refine ⟨hsearch, fun ds => ?_⟩
  simp [discoverLoop, hsub, hsearch]

/-- C4 witness: a reply with a leading line, the header, and a trailing
header line yields exactly the URL between `LOCATION: ` and the CRLF. -/
theorem C4_location_extraction_witness :
    searchLoc ("A\r\n".data ++ (locPat ++ ("http://gw:49152/desc.xml".data ++
        '\r' :: '\n' :: "SERVER: y\r\n".data))) = some "http://gw:49152/desc.xml".data
    ∧ ∀ ds, discoverLoop (Dgram.ok ("A\r\n".data ++ (locPat ++
        ("http://gw:49152/desc.xml".data ++ '\r' :: '\n' :: "SERVER: y\r\n".data))) :: ds)
        = DiscResult.found "http://gw:49152/desc.xml".data :=
  C4_location_extraction "A\r\n".data "http://gw:49152/desc.xml".data
    "SERVER: y\r\n".data (by decide) (by decide)

/-- C5: the walk selects the first service in document order whose
`serviceType` text ends with `WANIPConnection` and yields its `controlURL`
text unmodified; and that text is the request target of the mapping POST in
the run's effect trace (for a nonempty text, which `http.client` passes
through unchanged). -/
theorem C5_first_matching_service (pre post : List XElem) (s : XElem) (u : String)
    (hpre : ∀ t ∈ pre, ∃ txt, svcTypeText t = some txt ∧
      pyEndsWith txt "WANIPConnection" = false)
    (hs : ∃ txt, svcTypeText s = some txt ∧ pyEndsWith txt "WANIPConnection" = true)
    (hcu : ∃ cu, findChild s cuTag = some cu ∧ cu.text = some u) :
    findService (pre ++ s :: post) = FetchOutcome.found (some u)
    ∧ ∀ env port loc host root ip, env.sendErr = none →
        discoverLoop env.recvs = DiscResult.found loc →
        (splitSlash loc).get? 2 = some host →
        env.descResult = Except.ok root →
        servicesOf root = pre ++ s :: post →
        env.localIp = Except.ok ip →
        u ≠ "" →
        ∃ pa, (runUpnp env port).trace =
          [Effect.msearch, Effect.httpGet (String.mk host) pa,
           Effect.httpPost (String.mk host) u (soapBody port ip) soapHeaders] := by
  obtain ⟨txt, hst, hend⟩ := hs
  obtain ⟨cu, hcu1, hcu2⟩ := hcu
  have hfind : findService (pre ++ s :: post) = FetchOutcome.found (some u) := by
    rw [findService_skip pre (s :: post) hpre]
    simp [findService, hst, hend, hcu1, hcu2]
  refine ⟨hfind, ?_⟩
  intro env port loc host root ip hsend hdisc hhost hdesc hsvc hip hu
  have h := runUpnp_reaches_post env port loc host root (some u) ip
    hsend hdisc hhost hdesc (by rw [hsvc]; exact hfind) hip
  refine ⟨String.mk ('/' :: joinSlash ((splitSlash loc).drop 3)), ?_⟩
  rw [h]
  simp [postTarget, hu]

/-- C5 witness: with one non-matching service before the matching one, the
walk returns `/ctl/IPConn` and the POST in the trace targets it. -/
theorem C5_first_matching_service_witness :
    findService ([demoSvcOther] ++ demoSvcMatch :: []) = FetchOutcome.found (some "/ctl/IPConn")
    ∧ ∃ pa, (runUpnp demoEnvTwo 9).trace =
        [Effect.msearch, Effect.httpGet (String.mk "192.168.1.1:5000".data) pa,
         Effect.httpPost (String.mk "192.168.1.1:5000".data) "/ctl/IPConn"
           (soapBody 9 "192.168.1.10") soapHeaders] := by
  have h := C5_first_matching_service [demoSvcOther] [] demoSvcMatch "/ctl/IPConn"
    (by
      intro t ht
      simp only [List.mem_singleton] at ht
      subst ht
      exact ⟨"urn:demo:OtherService", by decide, by decide⟩)
    ⟨"urn:demo:WANIPConnection", by decide, by decide⟩
    ⟨XElem.mk cuTag (some "/ctl/IPConn") [], rfl, rfl⟩
  refine ⟨h.1, ?_⟩
  exact h.2 demoEnvTwo 9 "http://192.168.1.1:5000/desc.xml".data
    "192.168.1.1:5000".data demoRootTwo "192.168.1.10"
    rfl rfl rfl rfl
    (by simp [servicesOf, demoRootTwo, demoSvcOther, demoSvcMatch, subtreeList,
      XElem.children, XElem.tag, svcTag, stTag, cuTag])
    rfl (by decide)

/-- C6: when the fetched description is well formed but no service's
`serviceType` text ends with `WANIPConnection`, the walk reports the
for-else failure, the call returns `false`, and no mapping POST appears in
the trace. -/
theorem C6_service_not_found (env : Env) (port : Nat) (loc host : List Char)
    (root : XElem)
    (hsend : env.sendErr = none)
    (hdisc : discoverLoop env.recvs = DiscResult.found loc)
    (hhost : (splitSlash loc).get? 2 = some host)
    (hdesc : env.descResult = Except.ok root)
    (hall : ∀ t ∈ servicesOf root, ∃ txt, svcTypeText t = some txt ∧
      pyEndsWith txt "WANIPConnection" = false) :
    findService (servicesOf root) = FetchOutcome.notFound
    ∧ open_upnp_port env port = false
    ∧ ∀ ef ∈ (runUpnp env port).trace, ef.isPost = false := by
  have hnf : findService (servicesOf root) = FetchOutcome.notFound := by
    have h := findService_skip (servicesOf root) [] hall
    simpa using h
  have hr := runUpnp_no_service env port loc host root hsend hdisc hhost hdesc hnf
  refine ⟨hnf, by simp [open_upnp_port, hr], ?_⟩
  intro ef hef
  rw [hr] at hef
  simp only [List.mem_cons, List.not_mem_nil, or_false] at hef
  rcases hef with rfl | rfl <;> rfl

/-- C6 witness: a description whose only service is of another type makes
the call fail with no POST performed. -/
theorem C6_service_not_found_witness :
    findService (servicesOf demoRootNone) = FetchOutcome.notFound
    ∧ open_upnp_port demoEnvNoSvc 3 = false
    ∧ ∀ ef ∈ (runUpnp demoEnvNoSvc 3).trace, ef.isPost = false := by
  have hsvc : servicesOf demoRootNone = [demoSvcOther] := by
    simp [servicesOf, demoRootNone, demoSvcOther, subtreeList, XElem.children,
      XElem.tag, svcTag, stTag, cuTag]
  exact C6_service_not_found demoEnvNoSvc 3
    "http://192.168.1.1:5000/desc.xml".data "192.168.1.1:5000".data demoRootNone
    rfl rfl rfl rfl
    (by
      intro t ht
      rw [hsvc] at ht
      simp only [List.mem_singleton] at ht
      subst ht
      exact ⟨"urn:demo:OtherService", by decide, by decide⟩)

/-- C7 counterexample: the datagram `ABCLOCATIONABC` holds no `LOCATION: `
header (the pattern occurs nowhere in it), yet receiving it terminates
discovery with the failed-match exception instead of looping on to the next
datagram, which carries a valid header; the whole call then returns `false`
even though every later stage would succeed. -/
theorem C7_counterexample :
    isSubList locPat "ABCLOCATIONABC".data = false
    ∧ discoverLoop [Dgram.ok "ABCLOCATIONABC".data, Dgram.ok demoReply]
        = DiscResult.exc PyErr.attributeError
    ∧ open_upnp_port
        ⟨none, [Dgram.ok "ABCLOCATIONABC".data, Dgram.ok demoReply],
         Except.ok demoRoot, Except.ok "192.168.1.10", Except.ok (200, "<ok/>")⟩ 1234
      = false := by
  refine ⟨by decide, by decide, by decide⟩

/-- C7 as amended: the loop keeps receiving while datagrams lack the
substring `LOCATION` (not the header as such); a datagram holding that
substring but failing the `LOCATION: (.*)CRLF` pattern raises the
malformed-response failure, an outcome distinct from both a timeout and a
qualifying reply. -/
theorem C7_loop_behavior :
    (∀ d rest, isSubList locNeedle d = false →
        discoverLoop (Dgram.ok d :: rest) = discoverLoop rest)
    ∧ (∀ d rest, isSubList locNeedle d = true → searchLoc d = none →
        discoverLoop (Dgram.ok d :: rest) = DiscResult.exc PyErr.attributeError)
    ∧ (∀ e loc, DiscResult.exc e ≠ DiscResult.timeout
        ∧ DiscResult.exc e ≠ DiscResult.found loc) := by
  refine ⟨?_, ?_, ?_⟩
  · intro d rest h
    simp [discoverLoop, h]
  · intro d rest h1 h2
    simp [discoverLoop, h1, h2]
  · intro e loc
    exact ⟨fun h => DiscResult.noConfusion h, fun h => DiscResult.noConfusion h⟩

/-- C7 witness: a header-free NOTIFY datagram is skipped, and a datagram
holding `LOCATION` without a parsable header aborts with the exception. -/
theorem C7_loop_behavior_witness :
    discoverLoop [Dgram.ok "NOTIFY * HTTP/1.1\r\n".data, Dgram.ok demoReply]
      = discoverLoop [Dgram.ok demoReply]
    ∧ discoverLoop [Dgram.ok "xxLOCATIONxx".data]
      = DiscResult.exc PyErr.attributeError :=
  ⟨C7_loop_behavior.1 "NOTIFY * HTTP/1.1\r\n".data [Dgram.ok demoReply] (by decide),
   C7_loop_behavior.2.1 "xxLOCATIONxx".data [] (by decide) (by decide)⟩

/-- The characters of an appended string are the appended characters. -/
theorem data_append (s t : String) : (s ++ t).data = s.data ++ t.data := by
  cases s
  cases t
  rfl

/-- A needle that is a Boolean prefix of the haystack is a substring. -/
theorem isSubList_of_head_match (n s : List Char) (h : n.isPrefixOf s = true) :
    isSubList n s = true := by
  cases s with
  | nil =>
    cases n with
    | nil => rfl
    | cons c cs => simp [List.isPrefixOf] at h
  | cons c cs => simp [isSubList, h]

/-- A substring of the haystack stays one after prepending text. -/
theorem isSubList_tail_mono (n a b : List Char) (h : isSubList n b = true) :
    isSubList n (a ++ b) = true := by
  induction a with
  | nil => exact h
  | cons x xs ih =>
    show (n.isPrefixOf (x :: (xs ++ b)) || isSubList n (xs ++ b)) = true
    rw [ih, Bool.or_true]

/-- A list is a substring of itself followed by anything. -/
theorem isSubList_head (n rest : List Char) : isSubList n (n ++ rest) = true :=
  isSubList_of_head_match n (n ++ rest) (isPrefixOf_append_self n rest)

/-- A three-piece needle read off at the head of the haystack. -/
theorem isSubList_chain (n1 n2 n3 rest : List Char) :
    isSubList (n1 ++ (n2 ++ n3)) (n1 ++ (n2 ++ (n3 ++ rest))) = true := by
  apply isSubList_of_head_match
  have h := isPrefixOf_append_self (n1 ++ (n2 ++ n3)) rest
  rw [List.append_assoc, List.append_assoc] at h
  exact h

/-- C8: for every port and local IP the SOAP envelope interpolates the port
into both `NewExternalPort` and `NewInternalPort`, declares the empty
remote host, the protocol `TCP`, the enabled flag `1` and lease duration
`0`, invokes `AddPortMapping` in the `WANIPConnection:1` namespace, and the
request headers carry the quoted action URN as `SOAPAction`. -/
theorem C8_soap_envelope (port : Nat) (ip : String) :
    strContains (soapBody port ip)
      ("<NewExternalPort>" ++ toString port ++ "</NewExternalPort>") = true
    ∧ strContains (soapBody port ip)
      ("<NewInternalPort>" ++ toString port ++ "</NewInternalPort>") = true
    ∧ strContains (soapBody port ip) "<NewRemoteHost></NewRemoteHost>" = true
    ∧ strContains (soapBody port ip) "<NewProtocol>TCP</NewProtocol>" = true
    ∧ strContains (soapBody port ip) "<NewEnabled>1</NewEnabled>" = true
    ∧ strContains (soapBody port ip) "<NewLeaseDuration>0</NewLeaseDuration>" = true
    ∧ strContains (soapBody port ip)
      "<u:AddPortMapping xmlns:u=\"urn:schemas-upnp-org:service:WANIPConnection:1\">" = true
    ∧ ("SOAPAction",
       "\"urn:schemas-upnp-org:service:WANIPConnection:1#AddPortMapping\"") ∈ soapHeaders := by
  refine ⟨?_, ?_, ?_, ?_, ?_, ?_, ?_, ?_⟩
  · simp only [strContains, soapBody, data_append, List.append_assoc]
    iterate 5 apply isSubList_tail_mono
    exact isSubList_chain _ _ _ _
  · simp only [strContains, soapBody, data_append, List.append_assoc]
    iterate 11 apply isSubList_tail_mono
    exact isSubList_chain _ _ _ _
  · simp only [strContains, soapBody, data_append, List.append_assoc]
    iterate 3 apply isSubList_tail_mono
    exact isSubList_head _ _
  · simp only [strContains, soapBody, data_append, List.append_assoc]
    iterate 9 apply isSubList_tail_mono
    exact isSubList_head _ _
  · simp only [strContains, soapBody, data_append, List.append_assoc]
    iterate 19 apply isSubList_tail_mono
    exact isSubList_head _ _
  · simp only [strContains, soapBody, data_append, List.append_assoc]
    iterate 21 apply isSubList_tail_mono
    exact isSubList_head _ _
  · simp only [strContains, soapBody, data_append, List.append_assoc]
    iterate 1 apply isSubList_tail_mono
    exact isSubList_head _ _
  · simp [soapHeaders]

/-- C9: with the module state (the import-time logging configuration)
threaded explicitly, one invocation leaves the state unchanged, so a second
invocation against the same environment starts from the same state and
returns the same Boolean — the operation keeps no mutable state between
calls. -/
theorem C9_idempotent (st : ModuleState) (env : Env) (port : Nat) :
    (open_upnp_port_st st env port).2 = st
    ∧ (open_upnp_port_st st env port).1
      = (open_upnp_port_st (open_upnp_port_st st env port).2 env port).1 :=
  ⟨rfl, rfl⟩

/-- C10: a service lacking its `serviceType` child aborts the whole walk
with the attribute exception no matter what follows it; so does a selected
service lacking its `controlURL` child; and a walk that raises makes the
whole call return `false` — malformed services are not skipped even when a
later service would match. -/
theorem C10_malformed_service_aborts :
    (∀ pre bad rest, (∀ t ∈ pre, ∃ txt, svcTypeText t = some txt ∧
        pyEndsWith txt "WANIPConnection" = false) →
      findChild bad stTag = none →
      findService (pre ++ bad :: rest) = FetchOutcome.exc PyErr.attributeError)
    ∧ (∀ pre s rest, (∀ t ∈ pre, ∃ txt, svcTypeText t = some txt ∧
        pyEndsWith txt "WANIPConnection" = false) →
      (∃ txt, svcTypeText s = some txt ∧ pyEndsWith txt "WANIPConnection" = true) →
      findChild s cuTag = none →
      findService (pre ++ s :: rest) = FetchOutcome.exc PyErr.attributeError)
    ∧ (∀ env port loc host root e, env.sendErr = none →
        discoverLoop env.recvs = DiscResult.found loc →
        (splitSlash loc).get? 2 = some host →
        env.descResult = Except.ok root →
        findService (servicesOf root) = FetchOutcome.exc e →
        open_upnp_port env port = false) := by
  refine ⟨?_, ?_, ?_⟩
  · intro pre bad rest hpre hbad
    rw [findService_skip pre _ hpre]
    have hnone : svcTypeText bad = none := by simp [svcTypeText, hbad]
    simp [findService, hnone]
  · intro pre s rest hpre hs hcu
    obtain ⟨txt, h1, h2⟩ := hs
    rw [findService_skip pre _ hpre]
    simp [findService, h1, h2, hcu]
  · intro env port loc host root e hsend hdisc hhost hdesc hfind
    exact runUpnp_error_false env port e
      (by rw [runUpnp_svc_exc env port loc host root e hsend hdisc hhost hdesc hfind])

/-- C10 witness: a typeless service first in the list aborts the walk even
though a matching service follows; a matching service without `controlURL`
aborts too; and the whole call on such a description returns `false`. -/
theorem C10_malformed_service_aborts_witness :
    findService ([] ++ demoSvcNoType :: [demoSvcMatch])
      = FetchOutcome.exc PyErr.attributeError
    ∧ findService ([] ++ demoSvcNoCtl :: [demoSvcMatch])
      = FetchOutcome.exc PyErr.attributeError
    ∧ open_upnp_port demoEnvBadSvc 2 = false := by
  have hsvc : servicesOf demoRootBad = [demoSvcNoType, demoSvcMatch] := by
    simp [servicesOf, demoRootBad, demoSvcNoType, demoSvcMatch, subtreeList,
      XElem.children, XElem.tag, svcTag, stTag, cuTag]
  refine ⟨?_, ?_, ?_⟩
  · exact C10_malformed_service_aborts.1 [] demoSvcNoType [demoSvcMatch]
      (fun t ht => absurd ht (List.not_mem_nil t)) rfl
  · exact C10_malformed_service_aborts.2.1 [] demoSvcNoCtl [demoSvcMatch]
      (fun t ht => absurd ht (List.not_mem_nil t))
      ⟨"urn:demo:WANIPConnection", rfl, by decide⟩ rfl
  · exact C10_malformed_service_aborts.2.2 demoEnvBadSvc 2
      "http://192.168.1.1:5000/desc.xml".data "192.168.1.1:5000".data demoRootBad
      PyErr.attributeError rfl rfl rfl rfl (by rw [hsvc]; decide)
